import Mathlib

/-!
Shallow embedding of the LabCalc reaction computation engine
(`src/utils.py`): the unit-conversion layer (`to_mM`, `from_mM`, `to_uL`,
`from_uL`), the chemistry formulas (`amount_nmol_from_conc_vol`,
`calc_volume_uL_from_target`) and the reaction resolver
(`compute_reaction`).

Modelling conventions:
* Python floats are modelled as rationals (`ℚ`); the numeric formulas of
  the source are linear/rational so the arithmetic transfers exactly.
* Functions that `raise` on an unsupported unit string return `Option`:
  `none` models the raised `ValueError`, and a raise inside
  `compute_reaction` propagates as a `none` overall result.
* The error strings appended by `compute_reaction` are modelled by the
  closed inductive taxonomy `RxError` (one constructor per distinct
  message the source can append, row-scoped ones carrying the row index);
  the spec fixes the presence and triggering conditions of messages, not
  their text.
* The pandas `stocks_df` is modelled as a list of `Stock` records;
  `stocks_df[stocks_df["id"] == sel]` followed by the `.empty` test and
  `.iloc[0]` is modelled by `List.find?`.
-/

namespace LabCalc

/-- Concentration conversion to the canonical unit mM (src/utils.py `to_mM`);
`none` models the `ValueError` raised on an unsupported unit. -/
def to_mM (value : ℚ) (unit : String) : Option ℚ :=
  if unit = "M" then some (value * 1000)
  else if unit = "mM" then some value
  else if unit = "uM" then some (value / 1000)
  else if unit = "nM" then some (value / 1000000)
  else none

/-- Concentration conversion from mM (src/utils.py `from_mM`). -/
def from_mM (value_mM : ℚ) (unit : String) : Option ℚ :=
  if unit = "M" then some (value_mM / 1000)
  else if unit = "mM" then some value_mM
  else if unit = "uM" then some (value_mM * 1000)
  else if unit = "nM" then some (value_mM * 1000000)
  else none

/-- Volume conversion to the canonical unit uL (src/utils.py `to_uL`). -/
def to_uL (value : ℚ) (unit : String) : Option ℚ :=
  if unit = "uL" then some value
  else if unit = "mL" then some (value * 1000)
  else none

/-- Volume conversion from uL (src/utils.py `from_uL`). -/
def from_uL (value_uL : ℚ) (unit : String) : Option ℚ :=
  if unit = "uL" then some value_uL
  else if unit = "mL" then some (value_uL / 1000)
  else none

/-- c × V → amount in nmol (src/utils.py `amount_nmol_from_conc_vol`). -/
def amount_nmol_from_conc_vol (target_conc : ℚ) (target_unit : String)
    (final_volume : ℚ) (final_vol_unit : String) : Option ℚ := do
  let c_mM ← to_mM target_conc target_unit
  let v_uL ← to_uL final_volume final_vol_unit
  pure (c_mM * v_uL)

/-- Stock volume needed to hit a target concentration
(src/utils.py `calc_volume_uL_from_target`); guards `stock_mM <= 0`
by returning 0 instead of dividing. -/
def calc_volume_uL_from_target (stock_conc : ℚ) (stock_unit : String)
    (target_conc : ℚ) (target_unit : String)
    (final_volume : ℚ) (final_vol_unit : String) : Option ℚ := do
  let stock_mM ← to_mM stock_conc stock_unit
  let target_mM ← to_mM target_conc target_unit
  let final_uL ← to_uL final_volume final_vol_unit
  if stock_mM ≤ 0 then pure 0
  else pure (target_mM * final_uL / stock_mM)

/-- One row of a persisted stocks table (`stocks_df`). -/
structure Stock where
  id : String
  name : String
  stock_conc : ℚ
  stock_unit : String
deriving Repr, DecidableEq

/-- One reagent row of a reaction card (the dict `r` in `compute_reaction`). -/
structure Row where
  stock_sel : String
  target_conc : ℚ
  target_unit : String
  vol : ℚ
  vol_unit : String
  custom_name : String
  custom_stock_conc : ℚ
  custom_stock_unit : String
  note : String
deriving Repr, DecidableEq

/-- The reaction card (`card` in `compute_reaction`): final volume plus rows. -/
structure Card where
  final_volume : ℚ
  final_vol_unit : String
  rows : List Row
deriving Repr, DecidableEq

/-- The sentinel value of `stock_sel` marking an ad-hoc (non-DB) reagent,
the literal string compared in src/utils.py line 154. -/
def customSentinel : String := "(DB 미등록: 임시 시약)"

/-- The closed taxonomy of error messages `compute_reaction` can append;
row-scoped errors carry the 1-based row index interpolated into the
source's message string. -/
inductive RxError where
  /-- "Row i: invalid stock" — persisted stock id absent from the lookup. -/
  | rowInvalidStock (i : ℕ)
  /-- "Row i: invalid stock concentration" — resolved concentration ≤ 0. -/
  | rowInvalidConc (i : ℕ)
  /-- "Row i: target & volume both set". -/
  | rowBothSet (i : ℕ)
  /-- The reaction-level cap on direct-volume rows (Korean message,
  src/utils.py line 204). -/
  | tooManyVolumeRows
  /-- "총 volume이 final volume 초과" — total volume exceeds final volume. -/
  | totalExceeds
deriving Repr, DecidableEq

/-- One entry of the `computed` output list of `compute_reaction`. -/
structure ComputedLine where
  line_no : ℕ
  reagent : String
  stock_conc : ℚ
  stock_unit : String
  target_conc : ℚ
  target_unit : String
  volume : ℚ
  volume_unit : String
  amount : ℚ
  amount_unit : String
  note : String
  stock_id : Option String
  custom_name : Option String
deriving Repr, DecidableEq

/-- The mutable loop state of `compute_reaction`: the two mode counters,
the accumulating error and computed lists, and the running total volume. -/
structure RxState where
  n_target_rows : ℕ
  n_volume_rows : ℕ
  errors : List RxError
  computed : List ComputedLine
  total_uL : ℚ
deriving Repr, DecidableEq

/-- The state at loop entry. -/
def initState : RxState := ⟨0, 0, [], [], 0⟩

/-- Target-mode branch of the row computation (src/utils.py lines 188-194):
derive the stock volume from the target concentration and pass the target
through. Returns `(vol_used, tc2, tu2)`. -/
def target_mode_values (card : Card) (r : Row) (sc : ℚ) (su : String) :
    Option (ℚ × ℚ × String) := do
  let v_uL ← calc_volume_uL_from_target sc su r.target_conc r.target_unit
      card.final_volume card.final_vol_unit
  let vol_used ← from_uL v_uL r.vol_unit
  pure (vol_used, r.target_conc, r.target_unit)

/-- Volume-mode branch of the row computation (src/utils.py lines 195-200):
derive the effective concentration produced by the given volume. The
`if final_uL ≠ 0` mirrors Python's `... if final_uL else 0`, under which
`to_mM` is not even called when the final volume is zero. -/
def volume_mode_values (final_uL : ℚ) (r : Row) (sc : ℚ) (su : String) :
    Option (ℚ × ℚ × String) := do
  let v_uL ← to_uL r.vol r.vol_unit
  let eff_mM ← if final_uL ≠ 0 then
      (to_mM sc su).map (fun s_mM => s_mM * v_uL / final_uL)
    else pure 0
  let tc2 ← from_mM eff_mM r.target_unit
  pure (r.vol, tc2, r.target_unit)

/-- Body of the row loop after the stock reference has been resolved to a
concentration `sc`, unit `su`, display `label` and optional `stock_id`
(src/utils.py lines 170-228). Counters are incremented before the
mode-conflict check, and the reaction-level volume-row cap is re-checked
on every row that reaches the emission path. -/
def processResolved (card : Card) (final_uL : ℚ) (i : ℕ) (r : Row)
    (st : RxState) (sc : ℚ) (su label : String) (stock_id : Option String) :
    Option RxState :=
  if sc ≤ 0 then
    some { st with errors := st.errors ++ [RxError.rowInvalidConc i] }
  else
    let has_t := 0 < r.target_conc
    let has_v := 0 < r.vol
    let n_t := st.n_target_rows + if has_t then 1 else 0
    let n_v := st.n_volume_rows + if has_v then 1 else 0
    if has_t ∧ has_v then
      some { st with n_target_rows := n_t, n_volume_rows := n_v,
                     errors := st.errors ++ [RxError.rowBothSet i] }
    else if ¬has_t ∧ ¬has_v then
      some { st with n_target_rows := n_t, n_volume_rows := n_v }
    else do
      let (vol_used, tc2, tu2) ←
        if has_t then target_mode_values card r sc su
        else volume_mode_values final_uL r sc su
      let errs2 := if 0 < n_t ∧ 1 < n_v then
          st.errors ++ [RxError.tooManyVolumeRows]
        else st.errors
      let dv ← to_uL vol_used r.vol_unit
      let amt ← amount_nmol_from_conc_vol tc2 tu2
          card.final_volume card.final_vol_unit
      pure { n_target_rows := n_t, n_volume_rows := n_v,
             errors := errs2,
             computed := st.computed ++ [{
               line_no := i, reagent := label,
               stock_conc := sc, stock_unit := su,
               target_conc := tc2, target_unit := tu2,
               volume := vol_used, volume_unit := r.vol_unit,
               amount := amt, amount_unit := "nmol",
               note := r.note, stock_id := stock_id,
               custom_name := if stock_id = none then some r.custom_name
                 else none }],
             total_uL := st.total_uL + dv }

/-- One iteration of the row loop of `compute_reaction`
(src/utils.py lines 148-228): resolve the stock reference — silently skip
a custom row with an empty name, record a row error when a persisted id
is absent from the lookup — then hand off to `processResolved`. -/
def processRow (card : Card) (stocks_df : List Stock) (final_uL : ℚ)
    (i : ℕ) (r : Row) (st : RxState) : Option RxState :=
  if r.stock_sel = customSentinel then
    if r.custom_name = "" then some st
    else processResolved card final_uL i r st
      r.custom_stock_conc r.custom_stock_unit r.custom_name none
  else
    match stocks_df.find? (fun s => s.id = r.stock_sel) with
    | none => some { st with errors := st.errors ++ [RxError.rowInvalidStock i] }
    | some s => processResolved card final_uL i r st
        s.stock_conc s.stock_unit s.name (some r.stock_sel)

/-- The row loop, threading the state through the rows with 1-based
indices. -/
def processRows (card : Card) (stocks_df : List Stock) (final_uL : ℚ) :
    List Row → ℕ → RxState → Option RxState
  | [], _, st => some st
  | r :: rest, i, st => do
      let st2 ← processRow card stocks_df final_uL i r st
      processRows card stocks_df final_uL rest (i + 1) st2

/-- The reaction resolver (src/utils.py `compute_reaction`): run the row
loop, then append the capacity error when the accumulated total exceeds
the final volume by more than 1e-6 uL. Returns
`(errors, computed, total_uL, final_uL)`. -/
def compute_reaction (card : Card) (stocks_df : List Stock)
    (stock_options : List String) :
    Option (List RxError × List ComputedLine × ℚ × ℚ) := do
  let final_uL ← to_uL card.final_volume card.final_vol_unit
  let st ← processRows card stocks_df final_uL card.rows 1 initState
  let errs := if st.total_uL - final_uL > 1 / 1000000 then
      st.errors ++ [RxError.totalExceeds]
    else st.errors
  pure (errs, st.computed, st.total_uL, final_uL)

/-- The uL value of a computed line's volume, the quantity `compute_reaction`
accumulates into `total_uL` for each emitted line. -/
def lineVol (l : ComputedLine) : ℚ := (to_uL l.volume l.volume_unit).getD 0

/-- Sum of the uL volumes of a list of computed lines. -/
def sumVol (ls : List ComputedLine) : ℚ := (ls.map lineVol).sum

theorem sumVol_nil : sumVol [] = 0 := rfl

theorem sumVol_append (xs ys : List ComputedLine) :
    sumVol (xs ++ ys) = sumVol xs + sumVol ys := by
  simp [sumVol]

theorem errors_ite_decomp (P : Prop) [Decidable P] (es : List RxError) :
    ∃ es2, (if P then es ++ [RxError.tooManyVolumeRows] else es) = es ++ es2 ∧
      RxError.totalExceeds ∉ es2 := by
  split
  · exact ⟨[RxError.tooManyVolumeRows], rfl, by simp⟩
  · exact ⟨[], by simp, by simp⟩

/-- What one row-loop iteration can do to the state once the stock is
resolved: it never appends the capacity error, and it either leaves
`computed` and `total_uL` alone or emits exactly one line whose volume
converts back to uL, is added to the running total, and whose amount
comes from `amount_nmol_from_conc_vol` at the reaction's final volume. -/
theorem processResolved_spec {card : Card} {final_uL : ℚ} {i : ℕ} {r : Row}
    {st : RxState} {sc : ℚ} {su label : String} {stock_id : Option String}
    {st' : RxState}
    (h : processResolved card final_uL i r st sc su label stock_id = some st') :
    (∃ es, st'.errors = st.errors ++ es ∧ RxError.totalExceeds ∉ es) ∧
    (∃ ls, st'.computed = st.computed ++ ls ∧
      st'.total_uL = st.total_uL + sumVol ls ∧
      ∀ l ∈ ls, (to_uL l.volume l.volume_unit).isSome ∧
        amount_nmol_from_conc_vol l.target_conc l.target_unit
          card.final_volume card.final_vol_unit = some l.amount) := by
  simp only [processResolved] at h
  split at h
  · cases h
    exact ⟨⟨[RxError.rowInvalidConc i], rfl, by simp⟩,
      ⟨[], by simp, by simp [sumVol_nil], by simp⟩⟩
  · split at h
    · cases h
      exact ⟨⟨[RxError.rowBothSet i], rfl, by simp⟩,
        ⟨[], by simp, by simp [sumVol_nil], by simp⟩⟩
    · split at h
      · cases h
        exact ⟨⟨[], by simp, by simp⟩,
          ⟨[], by simp, by simp [sumVol_nil], by simp⟩⟩
      · split at h <;>
        · simp only [Option.bind_eq_bind, Option.bind_eq_some] at h
          obtain ⟨⟨vol_used, tc2, tu2⟩, hm, dv, hdv, amt, hamt, h⟩ := h
          dsimp only at hdv hamt
          cases h
          refine ⟨?_, ⟨[_], rfl, ?_, ?_⟩⟩
          · exact errors_ite_decomp _ _
          · dsimp only [sumVol, lineVol, List.map, List.sum_cons, List.sum_nil]
            simp [hdv]
          · intro l hl
            simp only [List.mem_singleton] at hl
            subst hl
            exact ⟨by simp [hdv], hamt⟩

/-- `processRow` refines `processResolved_spec`: the unresolved-stock and
empty-custom-name paths leave `computed` and the total alone and append at
most a row-scoped error. -/
theorem processRow_spec {card : Card} {stocks_df : List Stock} {final_uL : ℚ}
    {i : ℕ} {r : Row} {st st' : RxState}
    (h : processRow card stocks_df final_uL i r st = some st') :
    (∃ es, st'.errors = st.errors ++ es ∧ RxError.totalExceeds ∉ es) ∧
    (∃ ls, st'.computed = st.computed ++ ls ∧
      st'.total_uL = st.total_uL + sumVol ls ∧
      ∀ l ∈ ls, (to_uL l.volume l.volume_unit).isSome ∧
        amount_nmol_from_conc_vol l.target_conc l.target_unit
          card.final_volume card.final_vol_unit = some l.amount) := by
  simp only [processRow] at h
  split at h
  · split at h
    · cases h
      exact ⟨⟨[], by simp, by simp⟩, ⟨[], by simp, by simp [sumVol_nil], by simp⟩⟩
    · exact processResolved_spec h
  · split at h
    · cases h
      exact ⟨⟨[RxError.rowInvalidStock i], rfl, by simp⟩,
        ⟨[], by simp, by simp [sumVol_nil], by simp⟩⟩
    · exact processResolved_spec h

/-- The row loop composes the per-row guarantees: errors only grow by a
capacity-error-free suffix, and `total_uL` grows by exactly the uL sum of
the lines appended to `computed`, each of which satisfies the amount
formula at the reaction's final volume. -/
theorem processRows_spec {card : Card} {stocks_df : List Stock} {final_uL : ℚ} :
    ∀ {rows : List Row} {i : ℕ} {st st' : RxState},
    processRows card stocks_df final_uL rows i st = some st' →
    (∃ es, st'.errors = st.errors ++ es ∧ RxError.totalExceeds ∉ es) ∧
    (∃ ls, st'.computed = st.computed ++ ls ∧
      st'.total_uL = st.total_uL + sumVol ls ∧
      ∀ l ∈ ls, (to_uL l.volume l.volume_unit).isSome ∧
        amount_nmol_from_conc_vol l.target_conc l.target_unit
          card.final_volume card.final_vol_unit = some l.amount) := by
  intro rows
  induction rows with
  | nil =>
    intro i st st' h
    cases h
    exact ⟨⟨[], by simp, by simp⟩, ⟨[], by simp, by simp [sumVol_nil], by simp⟩⟩
  | cons r rest ih =>
    intro i st st' h
    simp only [processRows, Option.bind_eq_bind, Option.bind_eq_some] at h
    obtain ⟨st2, h1, h2⟩ := h
    obtain ⟨⟨es1, he1, hn1⟩, ⟨ls1, hc1, ht1, ha1⟩⟩ := processRow_spec h1
    obtain ⟨⟨es2, he2, hn2⟩, ⟨ls2, hc2, ht2, ha2⟩⟩ := ih h2
    refine ⟨⟨es1 ++ es2, ?_, ?_⟩, ⟨ls1 ++ ls2, ?_, ?_, ?_⟩⟩
    · rw [he2, he1, List.append_assoc]
    · simp [hn1, hn2]
    · rw [hc2, hc1, List.append_assoc]
    · rw [ht2, ht1, sumVol_append, add_assoc]
    · intro l hl
      rcases List.mem_append.1 hl with hl1 | hl2
      · exact ha1 l hl1
      · exact ha2 l hl2

/-- Decomposition of a successful `compute_reaction` call: the final volume
comes from `to_uL`, `computed` and the pre-capacity error list come from
the row loop started in the empty state, the returned total is the uL sum
of the computed lines, and the capacity error is appended (alone, at the
end) exactly when the total exceeds the final volume by more than 1e-6. -/
theorem compute_reaction_spec {card : Card} {stocks_df : List Stock}
    {stock_options : List String} {errs : List RxError}
    {comp : List ComputedLine} {tot fin : ℚ}
    (h : compute_reaction card stocks_df stock_options = some (errs, comp, tot, fin)) :
    to_uL card.final_volume card.final_vol_unit = some fin ∧
    tot = sumVol comp ∧
    (∀ l ∈ comp, (to_uL l.volume l.volume_unit).isSome ∧
      amount_nmol_from_conc_vol l.target_conc l.target_unit
        card.final_volume card.final_vol_unit = some l.amount) ∧
    (∃ es, RxError.totalExceeds ∉ es ∧
      errs = if tot - fin > 1 / 1000000 then es ++ [RxError.totalExceeds] else es) := by
  simp only [compute_reaction, Option.bind_eq_bind, Option.pure_def,
    Option.bind_eq_some] at h
  obtain ⟨fUL, hf, st, hst, h⟩ := h
  obtain ⟨⟨es, he, hn⟩, ⟨ls, hc, ht, ha⟩⟩ := processRows_spec hst
  simp only [initState] at he hc ht
  simp only [List.nil_append] at he hc
  cases h
  refine ⟨hf, ?_, ?_, ⟨es, hn, ?_⟩⟩
  · rw [hc, ht]; ring
  · rw [hc]; exact ha
  · rw [he]

/-- A target-mode row selecting a persisted stock (volume left at 0). -/
def dbTargetRow (sel : String) (tc : ℚ) : Row :=
  ⟨sel, tc, "mM", 0, "uL", "", 0, "mM", ""⟩

/-- A volume-mode row selecting a persisted stock (target left at 0). -/
def dbVolumeRow (sel : String) (v : ℚ) : Row :=
  ⟨sel, 0, "mM", v, "uL", "", 0, "mM", ""⟩

/-- A target-mode row using an ad-hoc stock of concentration `c` mM. -/
def customTargetRow (nm : String) (c tc : ℚ) : Row :=
  ⟨customSentinel, tc, "mM", 0, "uL", nm, c, "mM", ""⟩

/-- A volume-mode row using an ad-hoc stock of concentration `c` mM. -/
def customVolumeRow (nm : String) (c v : ℚ) : Row :=
  ⟨customSentinel, 0, "mM", v, "uL", nm, c, "mM", ""⟩

/-- A conflicting row (both target and volume positive) on an ad-hoc stock. -/
def customBothRow (nm : String) (c tc v : ℚ) : Row :=
  ⟨customSentinel, tc, "mM", v, "uL", nm, c, "mM", ""⟩

/-- Stock table for the end-to-end example: 100 mM and 50 mM stocks. -/
def exStocks : List Stock := [⟨"s1", "A", 100, "mM"⟩, ⟨"s2", "B", 50, "mM"⟩]

/-- The end-to-end example card: final volume 20 uL, a 10 mM target row on
the 100 mM stock and a 5 uL direct-volume row on the 50 mM stock. -/
def exCardEndToEnd : Card := ⟨20, "uL", [dbTargetRow "s1" 10, dbVolumeRow "s2" 5]⟩

/-- One target-mode row followed by three volume-mode rows, all usable. -/
def exCardTVVV : Card :=
  ⟨100, "uL", [customTargetRow "A" 100 10, customVolumeRow "B" 10 5,
               customVolumeRow "C" 10 5, customVolumeRow "D" 10 5]⟩

/-- A single inert row (target 0, volume 0) whose persisted stock id is
absent from the (empty) stock table. -/
def exCardInertUnknown : Card := ⟨20, "uL", [⟨"missing", 0, "mM", 0, "uL", "", 0, "mM", ""⟩]⟩

/-- One target row, two volume rows, then a row with an unknown stock id:
the mode-cap error fires at row 3, before row 4's row error. -/
def exCardInterleaved : Card :=
  ⟨100, "uL", [customTargetRow "A" 100 10, customVolumeRow "B" 10 5,
               customVolumeRow "C" 10 5, dbTargetRow "missing" 5]⟩

/-- Rows summing to 20.0000005 uL against a 20 uL final volume. -/
def exCardNearCap : Card := ⟨20, "uL", [customVolumeRow "X" 100 (40000001 / 2000000)]⟩

/-- Rows summing to 20.01 uL against a 20 uL final volume. -/
def exCardOverCap : Card := ⟨20, "uL", [customVolumeRow "X" 100 (2001 / 100)]⟩

/-- Two conflicting rows followed by one target-mode row. -/
def exCardConflicts : Card :=
  ⟨20, "uL", [customBothRow "X" 100 10 5, customBothRow "Y" 100 10 5,
              customTargetRow "Z" 100 10]⟩

/-- A card with a single usable target-mode row, used to instantiate the
universally quantified theorems at a concrete input. -/
def exCardSingle : Card := ⟨20, "uL", [customTargetRow "W" 100 10]⟩

/-- The single computed line `exCardSingle` produces. -/
def exLineSingle : ComputedLine :=
  ⟨1, "W", 100, "mM", 10, "mM", 2, "uL", 200, "nmol", "", none, some "W"⟩

/-- Evaluation of the resolver on `exCardSingle`, shared by the witnesses
of several universally quantified theorems. -/
theorem exCardSingle_eval :
    compute_reaction exCardSingle [] [] = some ([], [exLineSingle], 2, 20) := by
  norm_num +decide [compute_reaction, processRows, processRow, processResolved,
    target_mode_values, volume_mode_values, calc_volume_uL_from_target,
    amount_nmol_from_conc_vol, to_mM, to_uL, from_mM, from_uL, initState,
    customSentinel, customTargetRow, exCardSingle, exLineSingle]

/-- C1: on the end-to-end example (final volume 20 uL; row 1: 100 mM stock,
target 10 mM; row 2: 50 mM stock, direct volume 5 uL) `compute_reaction`
returns no errors and two computed lines — line 1 with volume 2 uL and
amount 200 nmol, line 2 with effective target 12.5 mM and amount 250 nmol —
and total volume 7 uL. -/
theorem end_to_end_example_holds :
    compute_reaction exCardEndToEnd exStocks [] =
      some ([],
        [⟨1, "A", 100, "mM", 10, "mM", 2, "uL", 200, "nmol", "", some "s1", none⟩,
         ⟨2, "B", 50, "mM", 25 / 2, "mM", 5, "uL", 250, "nmol", "", some "s2", none⟩],
        7, 20) := by
  norm_num +decide [compute_reaction, processRows, processRow, processResolved,
    target_mode_values, volume_mode_values, calc_volume_uL_from_target,
    amount_nmol_from_conc_vol, to_mM, to_uL, from_mM, from_uL, initState,
    customSentinel, dbTargetRow, dbVolumeRow, exCardEndToEnd, exStocks,
    List.find?]

/-- C3 counterexample: with one target-mode row followed by three usable
volume-mode rows, the reaction-level mode-cap error is appended twice in a
single call — refuting "at most once per call". -/
theorem modecap_error_twice :
    (compute_reaction exCardTVVV [] []).map (fun out => out.1) =
      some [RxError.tooManyVolumeRows, RxError.tooManyVolumeRows] ∧
    List.count RxError.tooManyVolumeRows
      [RxError.tooManyVolumeRows, RxError.tooManyVolumeRows] = 2 := by
  constructor
  · norm_num +decide [compute_reaction, processRows, processRow, processResolved,
      target_mode_values, volume_mode_values, calc_volume_uL_from_target,
      amount_nmol_from_conc_vol, to_mM, to_uL, from_mM, from_uL, initState,
      customSentinel, customTargetRow, customVolumeRow, exCardTVVV]
  · decide

/-- C4 counterexample: a row with target 0 and volume 0 whose stock
reference is a persisted id absent from the lookup still yields a row
error — the stock check precedes the inert-row check. -/
theorem inert_row_with_unknown_stock_errors :
    compute_reaction exCardInertUnknown [] [] =
      some ([RxError.rowInvalidStock 1], [], 0, 20) := by
  norm_num +decide [compute_reaction, processRows, processRow, processResolved,
    to_mM, to_uL, from_mM, from_uL, initState, customSentinel,
    exCardInertUnknown, List.find?]

/-- C5 counterexample: the mode-cap error (fired at row 3) precedes row 4's
row-scoped error in the returned list, refuting "all row-scoped errors
first, then the mode-mixing error". -/
theorem modecap_error_precedes_row_error :
    (compute_reaction exCardInterleaved [] []).map (fun out => out.1) =
      some [RxError.tooManyVolumeRows, RxError.rowInvalidStock 4] := by
  norm_num +decide [compute_reaction, processRows, processRow, processResolved,
    target_mode_values, volume_mode_values, calc_volume_uL_from_target,
    amount_nmol_from_conc_vol, to_mM, to_uL, from_mM, from_uL, initState,
    customSentinel, customTargetRow, customVolumeRow, dbTargetRow,
    exCardInterleaved, List.find?]

/-- Evaluation of the resolver on the near-capacity card (total
20.0000005 uL vs final 20 uL): no capacity error. -/
theorem exCardNearCap_eval :
    compute_reaction exCardNearCap [] [] =
      some ([], [⟨1, "X", 100, "mM", 40000001 / 400000, "mM",
        40000001 / 2000000, "uL", 40000001 / 20000, "nmol", "", none, some "X"⟩],
        40000001 / 2000000, 20) := by
  norm_num +decide [compute_reaction, processRows, processRow, processResolved,
    target_mode_values, volume_mode_values, calc_volume_uL_from_target,
    amount_nmol_from_conc_vol, to_mM, to_uL, from_mM, from_uL, initState,
    customSentinel, customVolumeRow, exCardNearCap]

/-- Evaluation of the resolver on the over-capacity card (total 20.01 uL
vs final 20 uL): exactly one capacity error. -/
theorem exCardOverCap_eval :
    compute_reaction exCardOverCap [] [] =
      some ([RxError.totalExceeds], [⟨1, "X", 100, "mM", 2001 / 20, "mM",
        2001 / 100, "uL", 2001, "nmol", "", none, some "X"⟩],
        2001 / 100, 20) := by
  norm_num +decide [compute_reaction, processRows, processRow, processResolved,
    target_mode_values, volume_mode_values, calc_volume_uL_from_target,
    amount_nmol_from_conc_vol, to_mM, to_uL, from_mM, from_uL, initState,
    customSentinel, customVolumeRow, exCardOverCap]

/-- C2: every line emitted into `computed` has `amount` equal to its
resolved target concentration converted to mM times the reaction's final
volume converted to uL (in nmol) — the final volume, never the row's own
volume, enters the amount. -/
theorem amount_uses_final_volume {card : Card} {stocks_df : List Stock}
    {stock_options : List String} {errs : List RxError}
    {comp : List ComputedLine} {tot fin : ℚ}
    (h : compute_reaction card stocks_df stock_options = some (errs, comp, tot, fin)) :
    ∀ l ∈ comp,
      amount_nmol_from_conc_vol l.target_conc l.target_unit
        card.final_volume card.final_vol_unit = some l.amount ∧
      ∃ c_mM v_uL, to_mM l.target_conc l.target_unit = some c_mM ∧
        to_uL card.final_volume card.final_vol_unit = some v_uL ∧
        l.amount = c_mM * v_uL := by
  obtain ⟨-, -, ha, -⟩ := compute_reaction_spec h
  intro l hl
  have h1 := (ha l hl).2
  refine ⟨h1, ?_⟩
  simp only [amount_nmol_from_conc_vol, Option.bind_eq_bind, Option.pure_def,
    Option.bind_eq_some] at h1
  obtain ⟨c, hc, w, hw, hcw⟩ := h1
  exact ⟨c, w, hc, hw, (Option.some.inj hcw).symm⟩

theorem amount_uses_final_volume_witness :
    amount_nmol_from_conc_vol exLineSingle.target_conc exLineSingle.target_unit
      exCardSingle.final_volume exCardSingle.final_vol_unit =
      some exLineSingle.amount :=
  (amount_uses_final_volume exCardSingle_eval exLineSingle (by simp)).1

/-- C9: the total volume returned by `compute_reaction` is exactly the sum
of the emitted lines' volumes converted to uL, and every emitted line's
volume/unit pair does convert. -/
theorem total_volume_is_sum_of_computed {card : Card} {stocks_df : List Stock}
    {stock_options : List String} {errs : List RxError}
    {comp : List ComputedLine} {tot fin : ℚ}
    (h : compute_reaction card stocks_df stock_options = some (errs, comp, tot, fin)) :
    tot = sumVol comp ∧ ∀ l ∈ comp, (to_uL l.volume l.volume_unit).isSome := by
  obtain ⟨-, ht, ha, -⟩ := compute_reaction_spec h
  exact ⟨ht, fun l hl => (ha l hl).1⟩

theorem total_volume_is_sum_of_computed_witness :
    (2 : ℚ) = sumVol [exLineSingle] :=
  (total_volume_is_sum_of_computed exCardSingle_eval).1

/-- C5 (amended): the capacity error, when present, is the last element of
`errors` and appears at most once; row-scoped and mode-cap errors are not
guaranteed to be ordered with all row errors first (see the
counterexample), but nothing follows the capacity error. -/
theorem capacity_error_is_last {card : Card} {stocks_df : List Stock}
    {stock_options : List String} {errs : List RxError}
    {comp : List ComputedLine} {tot fin : ℚ}
    (h : compute_reaction card stocks_df stock_options = some (errs, comp, tot, fin)) :
    List.count RxError.totalExceeds errs ≤ 1 ∧
    (RxError.totalExceeds ∈ errs →
      errs.getLast? = some RxError.totalExceeds) := by
  obtain ⟨-, -, -, es, hn, he⟩ := compute_reaction_spec h
  subst he
  split
  · constructor
    · rw [List.count_append, List.count_eq_zero.mpr hn]
      simp
    · intro _
      simp [List.getLast?_concat]
  · exact ⟨by simp [List.count_eq_zero.mpr hn], fun hmem => absurd hmem hn⟩

theorem capacity_error_is_last_witness :
    List.count RxError.totalExceeds [RxError.totalExceeds] ≤ 1 ∧
    (RxError.totalExceeds ∈ [RxError.totalExceeds] →
      [RxError.totalExceeds].getLast? = some RxError.totalExceeds) :=
  capacity_error_is_last exCardOverCap_eval

/-- C6: `compute_reaction` appends the capacity error exactly once when the
accumulated total exceeds the final volume by more than 1e-6 uL, and not
at all otherwise. -/
theorem capacity_error_count_iff_excess {card : Card} {stocks_df : List Stock}
    {stock_options : List String} {errs : List RxError}
    {comp : List ComputedLine} {tot fin : ℚ}
    (h : compute_reaction card stocks_df stock_options = some (errs, comp, tot, fin)) :
    List.count RxError.totalExceeds errs =
      if tot - fin > 1 / 1000000 then 1 else 0 := by
  obtain ⟨-, -, -, es, hn, he⟩ := compute_reaction_spec h
  subst he
  split
  · rw [List.count_append, List.count_eq_zero.mpr hn]
    simp
  · exact List.count_eq_zero.mpr hn

theorem capacity_error_count_iff_excess_witness :
    List.count RxError.totalExceeds ([] : List RxError) =
      (if (40000001 / 2000000 : ℚ) - 20 > 1 / 1000000 then 1 else 0) ∧
    List.count RxError.totalExceeds [RxError.totalExceeds] =
      (if (2001 / 100 : ℚ) - 20 > 1 / 1000000 then 1 else 0) :=
  ⟨capacity_error_count_iff_excess exCardNearCap_eval,
   capacity_error_count_iff_excess exCardOverCap_eval⟩

/-- C4 (amended): a row with target 0 and volume 0 whose stock reference
resolves — a custom row with an empty name, a custom row with positive
concentration, or a known persisted stock with positive concentration —
leaves the loop state completely unchanged: no computed line, no error, no
counter or total change. (Rows whose stock fails to resolve still produce
a stock error, as the counterexample shows.) -/
theorem inert_resolved_row_is_noop {card : Card} {stocks_df : List Stock}
    {final_uL : ℚ} {i : ℕ} {r : Row} {st : RxState}
    (h0 : r.target_conc = 0) (h1 : r.vol = 0)
    (hres : (r.stock_sel = customSentinel ∧
              (r.custom_name = "" ∨ 0 < r.custom_stock_conc)) ∨
            (r.stock_sel ≠ customSentinel ∧
              ∃ s, stocks_df.find? (fun s => s.id = r.stock_sel) = some s ∧
                0 < s.stock_conc)) :
    processRow card stocks_df final_uL i r st = some st := by
  rcases hres with ⟨hsel, hname | hconc⟩ | ⟨hsel, s, hfind, hconc⟩
  · simp [processRow, hsel, hname]
  · by_cases hname : r.custom_name = ""
    · simp [processRow, hsel, hname]
    · simp only [processRow, hsel, if_pos, if_neg hname]
      simp [processResolved, not_le.mpr hconc, h0, h1]
  · simp only [processRow, if_neg hsel, hfind]
    simp [processResolved, not_le.mpr hconc, h0, h1]

theorem inert_resolved_row_is_noop_witness :
    processRow exCardSingle [] 20 1
      ⟨customSentinel, 0, "mM", 0, "uL", "Q", 5, "mM", ""⟩ initState =
      some initState :=
  inert_resolved_row_is_noop rfl rfl (Or.inl ⟨rfl, Or.inr (by norm_num)⟩)

/-- C10: a row with both target and volume positive is excluded from
`computed` and recorded as a row error, yet still increments both mode
counters; consequently on the concrete card with two conflicting rows and
one target row, the mode-cap error fires although only one line (the
target row's, line 3) reaches `computed`. -/
theorem conflicting_row_increments_both_counters :
    (∀ (card : Card) (final_uL : ℚ) (i : ℕ) (r : Row) (st : RxState)
        (sc : ℚ) (su label : String) (stock_id : Option String),
      0 < sc → 0 < r.target_conc → 0 < r.vol →
      processResolved card final_uL i r st sc su label stock_id =
        some { st with n_target_rows := st.n_target_rows + 1,
                       n_volume_rows := st.n_volume_rows + 1,
                       errors := st.errors ++ [RxError.rowBothSet i] }) ∧
    (compute_reaction exCardConflicts [] []).map
        (fun out => (out.1, out.2.1.map (fun l => l.line_no))) =
      some ([RxError.rowBothSet 1, RxError.rowBothSet 2,
             RxError.tooManyVolumeRows], [3]) := by
  constructor
  · intro card f i r st sc su label sid hsc ht hv
    simp [processResolved, not_le.mpr hsc, ht, hv]
  · norm_num +decide [compute_reaction, processRows, processRow, processResolved,
      target_mode_values, volume_mode_values, calc_volume_uL_from_target,
      amount_nmol_from_conc_vol, to_mM, to_uL, from_mM, from_uL, initState,
      customSentinel, customTargetRow, customBothRow, exCardConflicts]

theorem conflicting_row_increments_both_counters_witness :
    processResolved exCardSingle 20 1 (customBothRow "X" 100 10 5) initState
      100 "mM" "X" none = some ⟨1, 1, [RxError.rowBothSet 1], [], 0⟩ :=
  conflicting_row_increments_both_counters.1 exCardSingle 20 1
    (customBothRow "X" 100 10 5) initState 100 "mM" "X" none
    (by norm_num) (by norm_num [customBothRow]) (by norm_num [customBothRow])

/-- C7: for every supported concentration unit and volume unit, converting
a value to the canonical unit and back returns it exactly (hence within
any tolerance). -/
theorem unit_roundtrip (v : ℚ) (hv : 0 ≤ v) :
    (∀ u ∈ (["M", "mM", "uM", "nM"] : List String),
      (to_mM v u).bind (fun x => from_mM x u) = some v) ∧
    (∀ u ∈ (["uL", "mL"] : List String),
      (to_uL v u).bind (fun x => from_uL x u) = some v) := by
  constructor <;> intro u hu <;> fin_cases hu <;>
    simp [to_mM, from_mM, to_uL, from_uL] <;> field_simp

theorem unit_roundtrip_witness :
    (0 : ℚ) ≤ 3 ∧ (to_mM 3 "M").bind (fun x => from_mM x "M") = some 3 :=
  ⟨by norm_num, (unit_roundtrip 3 (by norm_num)).1 "M" (by simp)⟩

/-- C8: with supported units, `calc_volume_uL_from_target` returns 0 (not
an error) when the stock concentration in mM is ≤ 0, and
`(target_mM × final_uL) / stock_mM` otherwise. -/
theorem calc_volume_guard_spec (sc : ℚ) (su : String) (tc : ℚ) (tu : String)
    (fv : ℚ) (fu : String) (s t f : ℚ)
    (hs : to_mM sc su = some s) (ht : to_mM tc tu = some t)
    (hf : to_uL fv fu = some f) :
    calc_volume_uL_from_target sc su tc tu fv fu =
      some (if s ≤ 0 then 0 else t * f / s) := by
  simp only [calc_volume_uL_from_target, Option.bind_eq_bind, hs, ht, hf,
    Option.some_bind]
  split <;> simp

/-- One target-mode row and exactly two volume-mode rows, all usable. -/
def exCardTVV : Card :=
  ⟨100, "uL", [customTargetRow "A" 100 10, customVolumeRow "B" 10 5,
               customVolumeRow "C" 10 5]⟩

/-- Evaluation of the resolver on `exCardTVV`: the mode-cap error fires
exactly once. -/
theorem exCardTVV_eval :
    compute_reaction exCardTVV [] [] =
      some ([RxError.tooManyVolumeRows],
        [⟨1, "A", 100, "mM", 10, "mM", 10, "uL", 1000, "nmol", "", none, some "A"⟩,
         ⟨2, "B", 10, "mM", 1 / 2, "mM", 5, "uL", 50, "nmol", "", none, some "B"⟩,
         ⟨3, "C", 10, "mM", 1 / 2, "mM", 5, "uL", 50, "nmol", "", none, some "C"⟩],
        20, 100) := by
  norm_num +decide [compute_reaction, processRows, processRow, processResolved,
    target_mode_values, volume_mode_values, calc_volume_uL_from_target,
    amount_nmol_from_conc_vol, to_mM, to_uL, from_mM, from_uL, initState,
    customSentinel, customTargetRow, customVolumeRow, exCardTVV]

/-- C3 (amended): the mode-cap error is re-emitted at every usable row
processed once the counters satisfy its condition, so it is not capped at
one per call in general (see the counterexample); but in the spec's
benchmark shape — exactly one usable target-mode row and exactly two
usable volume-mode rows, in any interleaving — it appears exactly once. -/
theorem modecap_error_once_for_single_t_two_v (c1 c2 c3 t v2 v3 f : ℚ)
    (hc1 : 0 < c1) (hc2 : 0 < c2) (hc3 : 0 < c3)
    (ht : 0 < t) (hv2 : 0 < v2) (hv3 : 0 < v3)
    (rows : List Row)
    (hrows : rows = [customTargetRow "A" c1 t, customVolumeRow "B" c2 v2,
                     customVolumeRow "C" c3 v3] ∨
             rows = [customVolumeRow "B" c2 v2, customTargetRow "A" c1 t,
                     customVolumeRow "C" c3 v3] ∨
             rows = [customVolumeRow "B" c2 v2, customVolumeRow "C" c3 v3,
                     customTargetRow "A" c1 t]) :
    ∀ out, compute_reaction ⟨f, "uL", rows⟩ [] [] = some out →
      List.count RxError.tooManyVolumeRows out.1 = 1 := by
  intro out h
  rcases hrows with rfl | rfl | rfl <;>
    rcases eq_or_ne f 0 with hf | hf <;>
    · norm_num +decide [compute_reaction, processRows, processRow, processResolved,
        target_mode_values, volume_mode_values, calc_volume_uL_from_target,
        amount_nmol_from_conc_vol, to_mM, to_uL, from_mM, from_uL, initState,
        customSentinel, customTargetRow, customVolumeRow,
        hc1.not_le, hc2.not_le, hc3.not_le, ht, hv2, hv3, hf] at h
      cases h
      split <;> (dsimp only; decide)

theorem modecap_error_once_for_single_t_two_v_witness :
    List.count RxError.tooManyVolumeRows [RxError.tooManyVolumeRows] = 1 :=
  modecap_error_once_for_single_t_two_v 100 10 10 10 5 5 100
    (by norm_num) (by norm_num) (by norm_num) (by norm_num) (by norm_num)
    (by norm_num) exCardTVV.rows (Or.inl rfl) _ exCardTVV_eval

theorem calc_volume_guard_spec_witness :
    calc_volume_uL_from_target (-2) "mM" 5 "mM" 10 "uL" = some 0 := by
  have h := calc_volume_guard_spec (-2) "mM" 5 "mM" 10 "uL" (-2) 5 10
    (by norm_num +decide [to_mM]) (by norm_num +decide [to_mM]) (by norm_num +decide [to_uL])
  norm_num at h
  exact h

end LabCalc
